import Mathlib

/-!
# Hardhat-ERC20: the token deployment script

A shallow embedding of `deploy/01-deploy-token.js`.  The script is an `async`
function that talks to four external collaborators (`getNamedAccounts`,
`deployments.deploy`, `deployments.log`, `verify`) and reads five ambient values
(`network.name`, `network.config.blockConfirmations`, `developmentChains`,
`INITIAL_SUPPLY`, `process.env.ETHERSCAN_API_KEY`).

The collaborators are oracles of the `World`; every call the script makes is
appended to a trace together with its outcome, and a rejected promise under
`await` is an exception that ends the script while the trace recorded so far stays.

Modelling choices, all read off the script and the types of the framework it calls:

* `getNamedAccounts`, `deploy` and `verify` are awaited, so each either resolves or
  is rejected; `log` is a synchronous console write and always returns.
* `deploy` resolves to a record with an `address`; `getNamedAccounts` resolves to an
  object whose `deployer` may be `undefined`.
* `blockConfirmations` is `undefined` or an integer, `ETHERSCAN_API_KEY` is
  `undefined` or a string, as environment variables are.
* `developmentChains` and `INITIAL_SUPPLY` come from `helper-hardhat-config`, which
  is outside this development: they are fields of the `World`.
-/

namespace DeployToken

/-! ## Data model -/

/-- A thrown JavaScript error (a rejected promise under `await`). -/
structure Err where
  message : String
  deriving DecidableEq

/-- A constructor argument value, as found in `args: [INITIAL_SUPPLY]`. -/
inductive Value where
  | num (n : Int)
  | str (s : String)
  deriving DecidableEq

/-- The object `getNamedAccounts()` resolves to; `deployer` is `undefined`
when the account is not configured. -/
structure NamedAccounts where
  deployer : Option String
  deriving DecidableEq

/-- The options object literal of lines 14-20, field by field
(`from_` stands for the JavaScript key `from`). -/
structure DeployOptions where
  contract : String
  from_ : Option String
  args : List Value
  log : Bool
  waitConfirmations : Int
  deriving DecidableEq

/-- The record `deployments.deploy` resolves to; the script reads `.address`. -/
structure DeployResult where
  address : String
  deriving DecidableEq

/-- The outcome of an awaited call: resolved with a value or rejected. -/
inductive Outcome (α : Type) where
  | resolved (a : α)
  | rejected (e : Err)
  deriving DecidableEq

/-- The `network.config` object; `blockConfirmations` is `undefined` when absent,
otherwise an integer. -/
structure NetworkConfig where
  blockConfirmations : Option Int
  deriving DecidableEq

/-- The `network` object imported from hardhat. -/
structure Network where
  name : String
  config : NetworkConfig
  deriving DecidableEq

/-- Everything outside the script: ambient values and the behaviour of the
external collaborators. -/
structure World where
  /-- `network` from `require("hardhat")` -/
  network : Network
  /-- `developmentChains` from `helper-hardhat-config` -/
  developmentChains : List String
  /-- `INITIAL_SUPPLY` from `helper-hardhat-config` -/
  INITIAL_SUPPLY : Value
  /-- `process.env.ETHERSCAN_API_KEY`: `undefined` or a string -/
  ETHERSCAN_API_KEY : Option String
  /-- `hre.getNamedAccounts()` -/
  getNamedAccounts : Outcome NamedAccounts
  /-- `hre.deployments.deploy(name, options)` -/
  deploy : String → DeployOptions → Outcome DeployResult
  /-- `verify(address, args)` from `utils/verify` -/
  verify : String → List Value → Outcome Unit

/-- One external call made by the script, with what it was given and how it ended. -/
inductive Event where
  | getNamedAccounts (res : Outcome NamedAccounts)
  | deploy (name : String) (options : DeployOptions) (res : Outcome DeployResult)
  | log (msg : String)
  | verify (address : String) (args : List Value) (res : Outcome Unit)
  deriving DecidableEq

/-- The script monad: exceptions over a trace of external calls; the trace
survives an exception. -/
abbrev Script := ExceptT Err (StateM (List Event))

/-- Append one event to the trace. -/
def emit (e : Event) : Script Unit :=
  modify (fun t => t ++ [e])

/-- The `await` of a promise that has already been settled. -/
def await {α : Type} : Outcome α → Script α
  | .resolved a => pure a
  | .rejected e => throw e

/-! ## ECMAScript primitives used by the script -/

/-- ToBoolean on `undefined | number` (integers: `0` is falsy). -/
def truthyNum : Option Int → Bool
  | none => false
  | some n => n != 0

/-- ToBoolean on `undefined | string` (the empty string is falsy). -/
def truthyStr : Option String → Bool
  | none => false
  | some s => s != ""

/-- The expression `x || 1` at type `undefined | number`. -/
def orOne (x : Option Int) : Int :=
  match x with
  | some n => if truthyNum (some n) then n else 1
  | none => 1

/-- `Array.prototype.includes` on an array of strings. -/
def includes (xs : List String) (x : String) : Bool :=
  xs.contains x

/-! ## The script -/

/-- The condition of the `if` on lines 23-26. -/
def verifyGate (w : World) : Bool :=
  !includes w.developmentChains w.network.name && truthyStr w.ETHERSCAN_API_KEY

/-- The options object literal passed to `deploy` on lines 14-20. -/
def deployOptions (w : World) (deployer : Option String) : DeployOptions :=
  { contract := "OurToken"
    from_ := deployer
    args := [w.INITIAL_SUPPLY]
    log := true
    waitConfirmations := orOne w.network.config.blockConfirmations }

/-- The body of `module.exports = async (hre) => { ... }`. -/
def deployToken (w : World) : Script Unit := do
  let accounts := w.getNamedAccounts
  emit (.getNamedAccounts accounts)
  let named ← await accounts
  let deployer := named.deployer
  -- deploy the contract
  let options := deployOptions w deployer
  let deployed := w.deploy "TokenContract" options
  emit (.deploy "TokenContract" options deployed)
  let ourTokenC ← await deployed
  -- Verify contract if on testnet
  if verifyGate w then
    emit (.log "Verifying the contract on etherscan ...")
    let verified := w.verify ourTokenC.address [w.INITIAL_SUPPLY]
    emit (.verify ourTokenC.address [w.INITIAL_SUPPLY] verified)
    await verified
    emit (.log ">>> Verified on Etherscan <<<")
    emit (.log "-----------------------------------------------------")

/-- A finished run: the calls made, in order, and how the script's promise settled. -/
structure Run where
  trace : List Event
  result : Outcome Unit
  deriving DecidableEq

/-- Run the script from an empty trace. -/
def run (w : World) : Run :=
  match (deployToken w).run.run [] with
  | (.ok (), t) => { trace := t, result := .resolved () }
  | (.error e, t) => { trace := t, result := .rejected e }

/-! ## Observations on traces -/

/-- Number of calls to `verify`. -/
def verifyCalls : List Event → Nat
  | [] => 0
  | .verify _ _ _ :: t => verifyCalls t + 1
  | _ :: t => verifyCalls t

/-- Number of calls to `deploy`. -/
def deployCalls : List Event → Nat
  | [] => 0
  | .deploy _ _ _ :: t => deployCalls t + 1
  | _ :: t => deployCalls t

/-- The lines the script logged, in order. -/
def logLines : List Event → List String
  | [] => []
  | .log m :: t => m :: logLines t
  | _ :: t => logLines t

/-- The event is a `deploy` call that resolved with a record. -/
def isDeployResolved : Event → Bool
  | .deploy _ _ (.resolved _) => true
  | _ => false

/-- The event is a `verify` call that resolved. -/
def isVerifyResolved : Event → Bool
  | .verify _ _ (.resolved _) => true
  | _ => false

/-- Some `deploy` call in the trace resolved with a record. -/
def deploySucceeded (t : List Event) : Bool :=
  t.any isDeployResolved

/-- The event is a call to `verify` or a log line. -/
def isVerifyOrLog : Event → Bool
  | .verify _ _ _ => true
  | .log _ => true
  | _ => false

/-- The event is the log line that announces a finished verification. -/
def isVerifiedLine (e : Event) : Bool :=
  e == .log ">>> Verified on Etherscan <<<"

/-- A scan of the trace from left to right: `seen` records whether an event
satisfying `p` has gone by, and every event satisfying `q` must find it set. -/
def guardedBy (p q : Event → Bool) : Bool → List Event → Bool
  | _, [] => true
  | seen, e :: t => (seen || !q e) && guardedBy p q (seen || p e) t

/-- Some `verify` call in the trace was rejected. -/
def verifyFailed (t : List Event) : Bool :=
  t.any fun e => match e with
    | .verify _ _ (.rejected _) => true
    | _ => false

/-- The error was raised by one of the awaited external calls of the trace. -/
def raisedBy (t : List Event) (err : Err) : Bool :=
  t.any fun e => match e with
    | .getNamedAccounts (.rejected x) => x == err
    | .deploy _ _ (.rejected x) => x == err
    | .verify _ _ (.rejected x) => x == err
    | _ => false

/-! ## Sample worlds -/

/-- A collaborator set in which everything resolves. -/
def sampleWorld (name : String) (key : Option String) (bc : Option Int) : World :=
  { network := { name := name, config := { blockConfirmations := bc } }
    developmentChains := ["hardhat", "localhost"]
    INITIAL_SUPPLY := .str "1000000000000000000000000"
    ETHERSCAN_API_KEY := key
    getNamedAccounts := .resolved { deployer := some "0xf39F" }
    deploy := fun _ _ => .resolved { address := "0x5FbD" }
    verify := fun _ _ => .resolved () }

/-- A test network with a key, on which `deploy` is rejected. -/
def deployRejectingWorld : World :=
  { sampleWorld "sepolia" (some "KEY") (some 6) with
    deploy := fun _ _ => .rejected { message := "insufficient funds" } }

/-- A test network with a key, on which `verify` is rejected. -/
def verifyRejectingWorld : World :=
  { sampleWorld "sepolia" (some "KEY") (some 6) with
    verify := fun _ _ => .rejected { message := "verification failed" } }

/-- A test network with a key, on which `getNamedAccounts` is rejected. -/
def accountsRejectingWorld : World :=
  { sampleWorld "sepolia" (some "KEY") (some 6) with
    getNamedAccounts := .rejected { message := "no accounts" } }

/-! ## The five shapes of a run -/

/-- The trace up to and including the `deploy` call. -/
def deployTrace (w : World) (named : NamedAccounts) : List Event :=
  [ .getNamedAccounts (.resolved named),
    .deploy "TokenContract" (deployOptions w named.deployer)
      (w.deploy "TokenContract" (deployOptions w named.deployer)) ]

theorem run_accounts_rejected (w : World) (e : Err)
    (h : w.getNamedAccounts = .rejected e) :
    run w = { trace := [.getNamedAccounts (.rejected e)], result := .rejected e } := by
  simp [run, deployToken, h, emit, await, ExceptT.run, StateT.run, bind, ExceptT.bind,
    ExceptT.mk, ExceptT.bindCont, StateT.bind, modify, modifyGet, MonadStateOf.modifyGet,
    StateT.modifyGet, liftM, monadLift, MonadLift.monadLift, ExceptT.lift, Functor.map,
    StateT.map, pure, StateT.pure, throw, throwThe, MonadExceptOf.throw, ExceptT.pure]

theorem run_deploy_rejected (w : World) (named : NamedAccounts) (e : Err)
    (h : w.getNamedAccounts = .resolved named)
    (hd : w.deploy "TokenContract" (deployOptions w named.deployer) = .rejected e) :
    run w = { trace := deployTrace w named, result := .rejected e } := by
  simp [run, deployToken, deployTrace, h, hd, emit, await, ExceptT.run, StateT.run, bind,
    ExceptT.bind, ExceptT.mk, ExceptT.bindCont, StateT.bind, modify, modifyGet,
    MonadStateOf.modifyGet, StateT.modifyGet, liftM, monadLift, MonadLift.monadLift,
    ExceptT.lift, Functor.map, StateT.map, pure, StateT.pure, throw, throwThe,
    MonadExceptOf.throw, ExceptT.pure]

theorem run_gate_closed (w : World) (named : NamedAccounts) (r : DeployResult)
    (h : w.getNamedAccounts = .resolved named)
    (hd : w.deploy "TokenContract" (deployOptions w named.deployer) = .resolved r)
    (hg : verifyGate w = false) :
    run w = { trace := deployTrace w named, result := .resolved () } := by
  simp [run, deployToken, deployTrace, h, hd, hg, emit, await, ExceptT.run, StateT.run, bind,
    ExceptT.bind, ExceptT.mk, ExceptT.bindCont, StateT.bind, modify, modifyGet,
    MonadStateOf.modifyGet, StateT.modifyGet, liftM, monadLift, MonadLift.monadLift,
    ExceptT.lift, Functor.map, StateT.map, pure, StateT.pure, throw, throwThe,
    MonadExceptOf.throw, ExceptT.pure]

theorem run_verify_rejected (w : World) (named : NamedAccounts) (r : DeployResult) (e : Err)
    (h : w.getNamedAccounts = .resolved named)
    (hd : w.deploy "TokenContract" (deployOptions w named.deployer) = .resolved r)
    (hg : verifyGate w = true)
    (hv : w.verify r.address [w.INITIAL_SUPPLY] = .rejected e) :
    run w =
      { trace := deployTrace w named ++
          [ .log "Verifying the contract on etherscan ...",
            .verify r.address [w.INITIAL_SUPPLY] (.rejected e) ]
        result := .rejected e } := by
  simp [run, deployToken, deployTrace, h, hd, hg, hv, emit, await, ExceptT.run, StateT.run,
    bind, ExceptT.bind, ExceptT.mk, ExceptT.bindCont, StateT.bind, modify, modifyGet,
    MonadStateOf.modifyGet, StateT.modifyGet, liftM, monadLift, MonadLift.monadLift,
    ExceptT.lift, Functor.map, StateT.map, pure, StateT.pure, throw, throwThe,
    MonadExceptOf.throw, ExceptT.pure]

theorem run_verify_resolved (w : World) (named : NamedAccounts) (r : DeployResult)
    (h : w.getNamedAccounts = .resolved named)
    (hd : w.deploy "TokenContract" (deployOptions w named.deployer) = .resolved r)
    (hg : verifyGate w = true)
    (hv : w.verify r.address [w.INITIAL_SUPPLY] = .resolved ()) :
    run w =
      { trace := deployTrace w named ++
          [ .log "Verifying the contract on etherscan ...",
            .verify r.address [w.INITIAL_SUPPLY] (.resolved ()),
            .log ">>> Verified on Etherscan <<<",
            .log "-----------------------------------------------------" ]
        result := .resolved () } := by
  simp [run, deployToken, deployTrace, h, hd, hg, hv, emit, await, ExceptT.run, StateT.run,
    bind, ExceptT.bind, ExceptT.mk, ExceptT.bindCont, StateT.bind, modify, modifyGet,
    MonadStateOf.modifyGet, StateT.modifyGet, liftM, monadLift, MonadLift.monadLift,
    ExceptT.lift, Functor.map, StateT.map, pure, StateT.pure, throw, throwThe,
    MonadExceptOf.throw, ExceptT.pure]

/-- The condition of the `if`, in words: the network is not a development chain
and the key is a non-empty string. -/
theorem verifyGate_iff (w : World) :
    verifyGate w = true ↔
      w.network.name ∉ w.developmentChains ∧
        ∃ k, w.ETHERSCAN_API_KEY = some k ∧ k ≠ "" := by
  unfold verifyGate includes
  cases hk : w.ETHERSCAN_API_KEY <;> simp [truthyStr]

/-- Every run has one of five shapes, decided by the outcomes of the awaited calls
and by the condition of the `if`. -/
theorem run_shapes (w : World) :
    (∃ e, w.getNamedAccounts = .rejected e ∧
      run w = { trace := [.getNamedAccounts (.rejected e)], result := .rejected e }) ∨
    (∃ named e, w.getNamedAccounts = .resolved named ∧
      w.deploy "TokenContract" (deployOptions w named.deployer) = .rejected e ∧
      run w = { trace := deployTrace w named, result := .rejected e }) ∨
    (∃ named r, w.getNamedAccounts = .resolved named ∧
      w.deploy "TokenContract" (deployOptions w named.deployer) = .resolved r ∧
      verifyGate w = false ∧
      run w = { trace := deployTrace w named, result := .resolved () }) ∨
    (∃ named r e, w.getNamedAccounts = .resolved named ∧
      w.deploy "TokenContract" (deployOptions w named.deployer) = .resolved r ∧
      verifyGate w = true ∧
      run w =
        { trace := deployTrace w named ++
            [ .log "Verifying the contract on etherscan ...",
              .verify r.address [w.INITIAL_SUPPLY] (.rejected e) ]
          result := .rejected e }) ∨
    (∃ named r, w.getNamedAccounts = .resolved named ∧
      w.deploy "TokenContract" (deployOptions w named.deployer) = .resolved r ∧
      verifyGate w = true ∧
      run w =
        { trace := deployTrace w named ++
            [ .log "Verifying the contract on etherscan ...",
              .verify r.address [w.INITIAL_SUPPLY] (.resolved ()),
              .log ">>> Verified on Etherscan <<<",
              .log "-----------------------------------------------------" ]
          result := .resolved () }) := by
  cases h : w.getNamedAccounts with
  | rejected e => exact Or.inl ⟨e, rfl, run_accounts_rejected w e h⟩
  | resolved named =>
    cases hd : w.deploy "TokenContract" (deployOptions w named.deployer) with
    | rejected e =>
      exact Or.inr (Or.inl ⟨named, e, rfl, hd, run_deploy_rejected w named e h hd⟩)
    | resolved r =>
      cases hg : verifyGate w with
      | false =>
        exact Or.inr (Or.inr (Or.inl ⟨named, r, rfl, hd, rfl, run_gate_closed w named r h hd hg⟩))
      | true =>
        cases hv : w.verify r.address [w.INITIAL_SUPPLY] with
        | rejected e =>
          exact Or.inr (Or.inr (Or.inr (Or.inl
            ⟨named, r, e, rfl, hd, rfl, run_verify_rejected w named r e h hd hg hv⟩)))
        | resolved u =>
          exact Or.inr (Or.inr (Or.inr (Or.inr
            ⟨named, r, rfl, hd, rfl, run_verify_resolved w named r h hd hg hv⟩)))

/-! ## The verification gate -/

/-- C1: in every run in which deploy succeeds, verify is invoked if and only if the
network name is not in developmentChains and ETHERSCAN_API_KEY is a non-empty
string; when it is invoked, it is invoked exactly once. -/
theorem verify_invoked_iff_gate (w : World)
    (hdep : deploySucceeded (run w).trace = true) :
    (0 < verifyCalls (run w).trace ↔
        w.network.name ∉ w.developmentChains ∧
          ∃ k, w.ETHERSCAN_API_KEY = some k ∧ k ≠ "") ∧
      (0 < verifyCalls (run w).trace → verifyCalls (run w).trace = 1) := by
  rw [← verifyGate_iff]
  rcases run_shapes w with ⟨e, _, hr⟩ | ⟨named, e, _, hd, hr⟩ | ⟨named, r, _, hd, hg, hr⟩ |
      ⟨named, r, e, _, hd, hg, hr⟩ | ⟨named, r, _, hd, hg, hr⟩ <;>
    rw [hr] at hdep ⊢ <;>
    simp_all [deployTrace, deploySucceeded, isDeployResolved, verifyCalls]

/-- Witness for C1: on a test network with a key the hypothesis
holds and verify is called once. -/
theorem verify_invoked_iff_gate_witness :
    deploySucceeded (run (sampleWorld "sepolia" (some "KEY") (some 6))).trace = true ∧
      verifyCalls (run (sampleWorld "sepolia" (some "KEY") (some 6))).trace = 1 :=
  ⟨by decide,
    (verify_invoked_iff_gate (sampleWorld "sepolia" (some "KEY") (some 6)) (by decide)).2
      (by decide)⟩

/-- C2: on a network whose name is in developmentChains, whatever the key and
whatever deploy returns, verify is called 0 times. -/
theorem development_chain_never_verifies (w : World)
    (hdev : w.network.name ∈ w.developmentChains) :
    verifyCalls (run w).trace = 0 := by
  have hg : verifyGate w = false := by
    cases hgate : verifyGate w with
    | false => rfl
    | true => exact absurd hdev ((verifyGate_iff w).mp hgate).1
  rcases run_shapes w with ⟨e, _, hr⟩ | ⟨named, e, _, hd, hr⟩ | ⟨named, r, _, hd, _, hr⟩ |
      ⟨named, r, e, _, hd, hg', hr⟩ | ⟨named, r, _, hd, hg', hr⟩ <;>
    rw [hr] <;>
    simp_all [deployTrace, verifyCalls]

/-- Witness for C2: the hardhat network with a key. -/
theorem development_chain_never_verifies_witness :
    "hardhat" ∈ (sampleWorld "hardhat" (some "KEY") none).developmentChains ∧
      verifyCalls (run (sampleWorld "hardhat" (some "KEY") none)).trace = 0 :=
  ⟨by decide, development_chain_never_verifies (sampleWorld "hardhat" (some "KEY") none)
    (by decide)⟩

/-- C3: when ETHERSCAN_API_KEY is unset or the empty string, verify is never called,
whatever the network name, and the run completes successfully whenever deploy
succeeds. -/
theorem no_credential_skips_verification (w : World)
    (hkey : w.ETHERSCAN_API_KEY = none ∨ w.ETHERSCAN_API_KEY = some "") :
    verifyCalls (run w).trace = 0 ∧
      (deploySucceeded (run w).trace = true → (run w).result = .resolved ()) := by
  have hg : verifyGate w = false := by
    cases hgate : verifyGate w with
    | false => rfl
    | true =>
      obtain ⟨_, k, hk, hne⟩ := (verifyGate_iff w).mp hgate
      rcases hkey with h | h <;> simp_all
  rcases run_shapes w with ⟨e, _, hr⟩ | ⟨named, e, _, hd, hr⟩ | ⟨named, r, _, hd, _, hr⟩ |
      ⟨named, r, e, _, hd, hg', hr⟩ | ⟨named, r, _, hd, hg', hr⟩ <;>
    rw [hr] <;>
    simp_all [deployTrace, verifyCalls, deploySucceeded, isDeployResolved]

/-- Witness for C3: a test network with an empty key. -/
theorem no_credential_skips_verification_witness :
    (sampleWorld "sepolia" (some "") (some 6)).ETHERSCAN_API_KEY = some "" ∧
      verifyCalls (run (sampleWorld "sepolia" (some "") (some 6))).trace = 0 ∧
      (run (sampleWorld "sepolia" (some "") (some 6))).result = .resolved () :=
  ⟨rfl,
    (no_credential_skips_verification (sampleWorld "sepolia" (some "") (some 6))
      (Or.inr rfl)).1,
    (no_credential_skips_verification (sampleWorld "sepolia" (some "") (some 6))
      (Or.inr rfl)).2 (by decide)⟩

/-! ## What verify is given, and when -/

/-- C4: whenever the script calls verify, the run made exactly one deploy call, that
call returned a record, the address passed to verify is the address of that record,
and the argument list passed to verify equals the args passed to that deploy call,
namely the one-element list holding INITIAL_SUPPLY. -/
theorem verify_receives_deployed_address_and_args (w : World)
    (address : String) (args : List Value) (res : Outcome Unit)
    (hv : Event.verify address args res ∈ (run w).trace) :
    deployCalls (run w).trace = 1 ∧
      ∃ name options record,
        Event.deploy name options (.resolved record) ∈ (run w).trace ∧
          address = record.address ∧ args = options.args ∧ args = [w.INITIAL_SUPPLY] := by
  rcases run_shapes w with ⟨e, _, hr⟩ | ⟨named, e, _, hd, hr⟩ | ⟨named, r, _, hd, _, hr⟩ |
      ⟨named, r, e, _, hd, hg, hr⟩ | ⟨named, r, _, hd, hg, hr⟩ <;>
    rw [hr] at hv ⊢ <;>
    simp [deployTrace, deployCalls] at hv ⊢
  · obtain ⟨rfl, rfl, -⟩ := hv
    exact ⟨"TokenContract", deployOptions w named.deployer, r, ⟨rfl, rfl, hd.symm⟩,
      rfl, rfl, rfl⟩
  · obtain ⟨rfl, rfl, -⟩ := hv
    exact ⟨"TokenContract", deployOptions w named.deployer, r, ⟨rfl, rfl, hd.symm⟩,
      rfl, rfl, rfl⟩

/-- Witness for C4: the verify call of a run
on a test network with a key. -/
theorem verify_receives_deployed_address_and_args_witness :
    Event.verify "0x5FbD" [.str "1000000000000000000000000"] (.resolved ()) ∈
        (run (sampleWorld "sepolia" (some "KEY") (some 6))).trace ∧
      deployCalls (run (sampleWorld "sepolia" (some "KEY") (some 6))).trace = 1 :=
  ⟨by decide,
    (verify_receives_deployed_address_and_args (sampleWorld "sepolia" (some "KEY") (some 6))
      "0x5FbD" [.str "1000000000000000000000000"] (.resolved ()) (by decide)).1⟩

/-- In a trace that passes the scan, an event satisfying `p` comes before each event
satisfying `q`. -/
theorem any_before_of_guardedBy (p q : Event → Bool) (pre post : List Event) (e : Event)
    (seen : Bool) (hg : guardedBy p q seen (pre ++ e :: post) = true) (he : q e = true) :
    seen = true ∨ pre.any p = true := by
  induction pre generalizing seen with
  | nil =>
    simp [guardedBy, he] at hg
    exact Or.inl hg.1
  | cons a pre ih =>
    simp only [List.cons_append, guardedBy, Bool.and_eq_true] at hg
    rcases ih _ hg.2 with h | h
    · cases seen with
      | true => exact Or.inl rfl
      | false =>
        right
        simp only [Bool.false_or] at h
        simp [h]
    · right
      simp [h]

/-- In every run a resolved `deploy` precedes each `verify` call and each log line. -/
theorem run_guarded_by_deploy (w : World) :
    guardedBy isDeployResolved isVerifyOrLog false (run w).trace = true := by
  rcases run_shapes w with ⟨e', _, hr⟩ | ⟨named, e', _, hd, hr⟩ | ⟨named, r, _, hd, _, hr⟩ |
      ⟨named, r, e', _, hd, hg, hr⟩ | ⟨named, r, _, hd, hg, hr⟩ <;>
    rw [hr] <;>
    simp_all [deployTrace, guardedBy, isVerifyOrLog, isDeployResolved]

/-- In every run a resolved `verify` precedes the line announcing the verification. -/
theorem run_guarded_by_verify (w : World) :
    guardedBy isVerifyResolved isVerifiedLine false (run w).trace = true := by
  rcases run_shapes w with ⟨e', _, hr⟩ | ⟨named, e', _, hd, hr⟩ | ⟨named, r, _, hd, _, hr⟩ |
      ⟨named, r, e', _, hd, hg, hr⟩ | ⟨named, r, _, hd, hg, hr⟩ <;>
    rw [hr] <;>
    simp_all [deployTrace, guardedBy, isVerifiedLine, isVerifyResolved]

/-- C5: in every run, whatever precedes a call to verify or a log line in the trace of
external calls contains a deploy call that has returned its record. -/
theorem deploy_returns_before_verify_and_logs (w : World) (pre post : List Event)
    (e : Event) (hsplit : (run w).trace = pre ++ e :: post)
    (he : isVerifyOrLog e = true) :
    deploySucceeded pre = true := by
  have hg := run_guarded_by_deploy w
  rw [hsplit] at hg
  rcases any_before_of_guardedBy _ _ pre post e false hg he with h | h
  · cases h
  · exact h

/-- Witness for C5: the verify call of a run on a
test network with a key comes after the resolved deploy call. -/
theorem deploy_returns_before_verify_and_logs_witness :
    (run (sampleWorld "sepolia" (some "KEY") (some 6))).trace =
        [ Event.getNamedAccounts (.resolved { deployer := some "0xf39F" }),
          Event.deploy "TokenContract"
            (deployOptions (sampleWorld "sepolia" (some "KEY") (some 6)) (some "0xf39F"))
            (.resolved { address := "0x5FbD" }),
          Event.log "Verifying the contract on etherscan ..." ] ++
        Event.verify "0x5FbD" [.str "1000000000000000000000000"] (.resolved ()) ::
          [ Event.log ">>> Verified on Etherscan <<<",
            Event.log "-----------------------------------------------------" ] ∧
      deploySucceeded
        [ Event.getNamedAccounts (.resolved { deployer := some "0xf39F" }),
          Event.deploy "TokenContract"
            (deployOptions (sampleWorld "sepolia" (some "KEY") (some 6)) (some "0xf39F"))
            (.resolved { address := "0x5FbD" }),
          Event.log "Verifying the contract on etherscan ..." ] = true :=
  ⟨by decide,
    deploy_returns_before_verify_and_logs (sampleWorld "sepolia" (some "KEY") (some 6))
      [ Event.getNamedAccounts (.resolved { deployer := some "0xf39F" }),
        Event.deploy "TokenContract"
          (deployOptions (sampleWorld "sepolia" (some "KEY") (some 6)) (some "0xf39F"))
          (.resolved { address := "0x5FbD" }),
        Event.log "Verifying the contract on etherscan ..." ]
      [ Event.log ">>> Verified on Etherscan <<<",
        Event.log "-----------------------------------------------------" ]
      (Event.verify "0x5FbD" [.str "1000000000000000000000000"] (.resolved ()))
      (by decide) (by decide)⟩

/-! ## Errors -/

/-- C6: if getNamedAccounts or the deploy call is rejected with an error, the script is
rejected with that same error, makes no call to verify and emits no log line, for
every network name and key. -/
theorem deploy_error_propagates (w : World) (err : Err)
    (hfail : Event.getNamedAccounts (.rejected err) ∈ (run w).trace ∨
      ∃ name options, Event.deploy name options (.rejected err) ∈ (run w).trace) :
    (run w).result = .rejected err ∧ verifyCalls (run w).trace = 0 ∧
      logLines (run w).trace = [] := by
  rcases run_shapes w with ⟨e, _, hr⟩ | ⟨named, e, _, hd, hr⟩ | ⟨named, r, _, hd, _, hr⟩ |
      ⟨named, r, e, _, hd, hg, hr⟩ | ⟨named, r, _, hd, hg, hr⟩ <;>
    rw [hr] at hfail ⊢ <;>
    simp_all [deployTrace, verifyCalls, logLines]

/-- Witness for C6: a rejected deploy on a test network with a
key. -/
theorem deploy_error_propagates_witness :
    (∃ name options, Event.deploy name options (.rejected { message := "insufficient funds" }) ∈
        (run deployRejectingWorld).trace) ∧
      (run deployRejectingWorld).result = .rejected { message := "insufficient funds" } ∧
      verifyCalls (run deployRejectingWorld).trace = 0 ∧
      logLines (run deployRejectingWorld).trace = [] :=
  ⟨⟨"TokenContract", deployOptions deployRejectingWorld (some "0xf39F"), by decide⟩,
    deploy_error_propagates deployRejectingWorld { message := "insufficient funds" }
      (Or.inr ⟨"TokenContract", deployOptions deployRejectingWorld (some "0xf39F"),
        by decide⟩)⟩

/-- C7, as stated, fails: on a test network with a key, deploy resolves, verify is
rejected, and the script is rejected. -/
theorem verify_failure_is_fatal_counterexample :
    deploySucceeded (run verifyRejectingWorld).trace = true ∧
      verifyFailed (run verifyRejectingWorld).trace = true ∧
      (run verifyRejectingWorld).result = .rejected { message := "verification failed" } ∧
      (run verifyRejectingWorld).result ≠ .resolved () := by
  decide

/-- C7, amended: a verify call that is rejected with an error makes the script be
rejected with that same error; in that run deploy was called once and had returned
its record, and the only line logged is the announcement of the verification. -/
theorem verify_error_propagates (w : World) (address : String) (args : List Value)
    (err : Err) (hv : Event.verify address args (.rejected err) ∈ (run w).trace) :
    (run w).result = .rejected err ∧ deployCalls (run w).trace = 1 ∧
      deploySucceeded (run w).trace = true ∧
      logLines (run w).trace = ["Verifying the contract on etherscan ..."] := by
  rcases run_shapes w with ⟨e, _, hr⟩ | ⟨named, e, _, hd, hr⟩ | ⟨named, r, _, hd, _, hr⟩ |
      ⟨named, r, e, _, hd, hg, hr⟩ | ⟨named, r, _, hd, hg, hr⟩ <;>
    rw [hr] at hv ⊢ <;>
    simp_all [deployTrace, deployCalls, logLines, deploySucceeded, isDeployResolved]

/-- Witness for C7, amended: a rejected verify on a test network. -/
theorem verify_error_propagates_witness :
    Event.verify "0x5FbD" [.str "1000000000000000000000000"]
        (.rejected { message := "verification failed" }) ∈ (run verifyRejectingWorld).trace ∧
      (run verifyRejectingWorld).result = .rejected { message := "verification failed" } :=
  ⟨by decide,
    (verify_error_propagates verifyRejectingWorld "0x5FbD" [.str "1000000000000000000000000"]
      { message := "verification failed" } (by decide)).1⟩

/-! ## Confirmations -/

/-- C8, as stated, fails: with `blockConfirmations` set to -1 the script raises no
configuration error; deploy is called with `waitConfirmations` -1 and the run
completes. -/
theorem negative_confirmations_counterexample :
    (sampleWorld "sepolia" (some "KEY") (some (-1))).network.config.blockConfirmations =
        some (-1) ∧
      Event.deploy "TokenContract"
          { contract := "OurToken", from_ := some "0xf39F",
            args := [.str "1000000000000000000000000"], log := true,
            waitConfirmations := -1 }
          (.resolved { address := "0x5FbD" }) ∈
        (run (sampleWorld "sepolia" (some "KEY") (some (-1)))).trace ∧
      (run (sampleWorld "sepolia" (some "KEY") (some (-1)))).result = .resolved () := by
  decide

/-- C8, amended: a negative `blockConfirmations` is not validated.  Every deploy call
of the run carries that negative value as `waitConfirmations`, deploy is called
exactly once as soon as getNamedAccounts has resolved, and an error of the run is
always one raised by getNamedAccounts, deploy or verify, never one of the script's
own. -/
theorem negative_confirmations_passed_through (w : World) (n : Int)
    (hbc : w.network.config.blockConfirmations = some n) (hneg : n < 0) :
    (∀ name options res, Event.deploy name options res ∈ (run w).trace →
        options.waitConfirmations = n) ∧
      (∀ named, w.getNamedAccounts = .resolved named → deployCalls (run w).trace = 1) ∧
      (∀ err, (run w).result = .rejected err → raisedBy (run w).trace err = true) := by
  have hor : orOne w.network.config.blockConfirmations = n := by
    have hn : n ≠ 0 := by omega
    simp [orOne, truthyNum, hbc, hn]
  rcases run_shapes w with ⟨e, he, hr⟩ | ⟨named, e, he, hd, hr⟩ | ⟨named, r, he, hd, _, hr⟩ |
      ⟨named, r, e, he, hd, hg, hr⟩ | ⟨named, r, he, hd, hg, hr⟩ <;>
    rw [hr] <;>
    simp_all [deployTrace, deployCalls, raisedBy, deployOptions]

/-- Witness for C8, amended: `blockConfirmations` -1. -/
theorem negative_confirmations_passed_through_witness :
    (sampleWorld "sepolia" (some "KEY") (some (-1))).network.config.blockConfirmations =
        some (-1) ∧
      deployCalls (run (sampleWorld "sepolia" (some "KEY") (some (-1)))).trace = 1 :=
  ⟨rfl,
    (negative_confirmations_passed_through (sampleWorld "sepolia" (some "KEY") (some (-1)))
      (-1) rfl (by decide)).2.1 { deployer := some "0xf39F" } rfl⟩

/-- C9: the `waitConfirmations` passed to deploy equals `blockConfirmations` when that
is configured and non-zero, and equals 1 when it is absent or 0; so for an absent or
non-negative configuration deploy is asked to wait for at least 1 confirmation. -/
theorem waitConfirmations_value (w : World) (name : String) (options : DeployOptions)
    (res : Outcome DeployResult)
    (hcall : Event.deploy name options res ∈ (run w).trace) :
    (∀ n, w.network.config.blockConfirmations = some n → n ≠ 0 →
        options.waitConfirmations = n) ∧
      (w.network.config.blockConfirmations = none ∨
          w.network.config.blockConfirmations = some 0 →
        options.waitConfirmations = 1) ∧
      (w.network.config.blockConfirmations = none ∨
          (∃ n, w.network.config.blockConfirmations = some n ∧ 0 ≤ n) →
        1 ≤ options.waitConfirmations) := by
  have hopt : options.waitConfirmations = orOne w.network.config.blockConfirmations := by
    rcases run_shapes w with ⟨e, he, hr⟩ | ⟨named, e, he, hd, hr⟩ |
        ⟨named, r, he, hd, _, hr⟩ | ⟨named, r, e, he, hd, hg, hr⟩ |
        ⟨named, r, he, hd, hg, hr⟩ <;>
      rw [hr] at hcall <;>
      simp [deployTrace] at hcall <;>
      (obtain ⟨-, rfl, -⟩ := hcall; rfl)
  rw [hopt]
  refine ⟨?_, ?_, ?_⟩
  · intro n hn hne
    simp [orOne, truthyNum, hn, hne]
  · rintro (h | h) <;> simp [orOne, truthyNum, h]
  · rintro (h | ⟨n, h, hn⟩)
    · simp [orOne, h]
    · by_cases h0 : n = 0
      · simp [orOne, truthyNum, h, h0]
      · simp [orOne, truthyNum, h, h0]
        omega

/-- Witness for C9: six configured confirmations are passed on. -/
theorem waitConfirmations_value_witness :
    Event.deploy "TokenContract"
        (deployOptions (sampleWorld "sepolia" (some "KEY") (some 6)) (some "0xf39F"))
        (.resolved { address := "0x5FbD" }) ∈
      (run (sampleWorld "sepolia" (some "KEY") (some 6))).trace ∧
    (deployOptions (sampleWorld "sepolia" (some "KEY") (some 6))
      (some "0xf39F")).waitConfirmations = 6 :=
  ⟨by decide,
    (waitConfirmations_value (sampleWorld "sepolia" (some "KEY") (some 6)) "TokenContract"
      (deployOptions (sampleWorld "sepolia" (some "KEY") (some 6)) (some "0xf39F"))
      (.resolved { address := "0x5FbD" }) (by decide)).1 6 rfl (by decide)⟩

/-! ## The calls and log lines of a run -/

/-- C10, as stated, fails on runs that end early: with the gate open, a rejected
getNamedAccounts leaves deploy uncalled and nothing logged, and a rejected verify
leaves a single log line. -/
theorem deploy_once_and_three_lines_counterexample :
    (verifyGate accountsRejectingWorld = true ∧
        deployCalls (run accountsRejectingWorld).trace = 0 ∧
        logLines (run accountsRejectingWorld).trace = []) ∧
      (verifyGate verifyRejectingWorld = true ∧
        logLines (run verifyRejectingWorld).trace =
          ["Verifying the contract on etherscan ..."]) := by
  decide

/-- C10, amended: every run in which getNamedAccounts resolves calls deploy exactly
once, under the name "TokenContract" for contract "OurToken" from the deployer
account with args [INITIAL_SUPPLY], whatever the gate; when the gate is closed no
line is logged; when it is open and neither deploy nor verify is rejected, the rest
of the trace after the deploy call is the first log line, the verify call and the
two other log lines, in that order; and in every run whatever precedes the line
">>> Verified on Etherscan <<<" contains a verify call that returned without
error. -/
theorem deploy_once_and_log_lines (w : World) :
    (∀ named, w.getNamedAccounts = .resolved named →
        deployCalls (run w).trace = 1 ∧
          ∃ res, Event.deploy "TokenContract"
            { contract := "OurToken", from_ := named.deployer, args := [w.INITIAL_SUPPLY],
              log := true, waitConfirmations := orOne w.network.config.blockConfirmations }
            res ∈ (run w).trace) ∧
      (verifyGate w = false → logLines (run w).trace = []) ∧
      (verifyGate w = true → deploySucceeded (run w).trace = true →
        verifyFailed (run w).trace = false →
        ∃ before address args,
          (run w).trace = before ++
            [ Event.log "Verifying the contract on etherscan ...",
              Event.verify address args (.resolved ()),
              Event.log ">>> Verified on Etherscan <<<",
              Event.log "-----------------------------------------------------" ] ∧
          logLines before = [] ∧ verifyCalls before = 0) ∧
      (∀ before after,
        (run w).trace = before ++ Event.log ">>> Verified on Etherscan <<<" :: after →
        ∃ address args, Event.verify address args (.resolved ()) ∈ before) := by
  refine ⟨?_, ?_, ?_, ?_⟩
  · intro named hn
    rcases run_shapes w with ⟨e, he, hr⟩ | ⟨named', e, he, hd, hr⟩ |
        ⟨named', r, he, hd, _, hr⟩ | ⟨named', r, e, he, hd, hg, hr⟩ |
        ⟨named', r, he, hd, hg, hr⟩ <;>
      rw [hr] <;>
      simp_all [deployTrace, deployCalls, deployOptions]
  · intro hclosed
    rcases run_shapes w with ⟨e, he, hr⟩ | ⟨named', e, he, hd, hr⟩ |
        ⟨named', r, he, hd, _, hr⟩ | ⟨named', r, e, he, hd, hg, hr⟩ |
        ⟨named', r, he, hd, hg, hr⟩ <;>
      rw [hr] <;>
      simp_all [deployTrace, logLines]
  · intro hopen hdep hver
    rcases run_shapes w with ⟨e, he, hr⟩ | ⟨named', e, he, hd, hr⟩ |
        ⟨named', r, he, hd, hg, hr⟩ | ⟨named', r, e, he, hd, hg, hr⟩ |
        ⟨named', r, he, hd, hg, hr⟩ <;>
      rw [hr] at hdep hver ⊢
    · simp [deploySucceeded, isDeployResolved] at hdep
    · simp [deployTrace, deploySucceeded, isDeployResolved, hd] at hdep
    · simp [hopen] at hg
    · simp [deployTrace, verifyFailed, hd] at hver
    · exact ⟨deployTrace w named', r.address, [w.INITIAL_SUPPLY], rfl,
        by simp [deployTrace, logLines], by simp [deployTrace, verifyCalls]⟩
  · intro before after hsplit
    have hg := run_guarded_by_verify w
    rw [hsplit] at hg
    rcases any_before_of_guardedBy _ _ before after _ false hg (by decide) with h | h
    · cases h
    · obtain ⟨x, hx, hp⟩ := List.any_eq_true.mp h
      cases x with
      | verify address args res =>
        cases res with
        | resolved u => exact ⟨address, args, hx⟩
        | rejected e => simp [isVerifyResolved] at hp
      | _ => simp [isVerifyResolved] at hp

/-- Witness for C10, amended: a run on a test network with a key makes
one deploy call and logs the three lines. -/
theorem deploy_once_and_log_lines_witness :
    deployCalls (run (sampleWorld "sepolia" (some "KEY") (some 6))).trace = 1 ∧
      ∃ before address args,
        (run (sampleWorld "sepolia" (some "KEY") (some 6))).trace = before ++
          [ Event.log "Verifying the contract on etherscan ...",
            Event.verify address args (.resolved ()),
            Event.log ">>> Verified on Etherscan <<<",
            Event.log "-----------------------------------------------------" ] ∧
        logLines before = [] ∧ verifyCalls before = 0 :=
  ⟨((deploy_once_and_log_lines (sampleWorld "sepolia" (some "KEY") (some 6))).1
      { deployer := some "0xf39F" } rfl).1,
    (deploy_once_and_log_lines (sampleWorld "sepolia" (some "KEY") (some 6))).2.2.1
      (by decide) (by decide) (by decide)⟩

end DeployToken
